import Mathlib

/-!
# Capsule frontend — lifecycle orchestration, verified against the source

Shallow embedding of the client-side lifecycle orchestration layer of the
Capsule video platform: file validation and upload (UploadSection.tsx),
status polling (`checkProcessingStatus` in UploadSection.tsx,
`startIntensiveMonitoring` in ManageSection.tsx), collection auto-refresh
(ManageSection.tsx and the VideoDashboard component), detail fetching and
deletion (VideoDashboard), and the debounced remote-source validator
(modelled from the specification, as no such code exists in the sources).

Statuses are strings in the source (`video.status === "completed"` in JavaScript, with string literals);
they are embedded as an inductive type whose constructors are exactly the
six status strings of the data model, and each branch below mirrors the
corresponding `if`/`else if` chain of the source.
-/

namespace Capsule

/-- Asset status. The source stores it as a string; the six values of the
data model are `uploaded`, `queued`, `downloading`, `processing`,
`completed`, `failed`. -/
inductive Status
  | uploaded
  | queued
  | downloading
  | processing
  | completed
  | failed
deriving DecidableEq, Repr

/-- Outcome of one `fetch` of `GET /api/videos/:id` as the polling code
distinguishes them: the `catch` branch (network error), a response with
`response.ok` false (the code does nothing in that case), or an ok
response carrying the parsed `video.status`. -/
inductive FetchOutcome
  | networkError
  | httpError
  | ok (status : Status)
deriving DecidableEq, Repr

/-- A `window.dispatchEvent(new CustomEvent(...))` emission, with the
`detail` payload fields the source attaches. -/
inductive Event
  | videoUploaded (videoId : Nat)
  | videoProcessingStarted (videoId : Nat)
  | videoProcessingCompleted (videoId : Nat)
  | videoStatusChanged (videoId : Nat) (status : Status)
deriving DecidableEq, Repr

/-- What one iteration of a polling callback does: the events it
dispatches, and whether it schedules the next check via `setTimeout`. -/
structure PollStep where
  events : List Event
  schedulesNext : Bool
deriving DecidableEq, Repr

/-- Function `checkProcessingStatus` (UploadSection.tsx, first variant, lines
208-237), one iteration. `completed`: set completed progress and dispatch
`videoProcessingCompleted`; `failed`: set error progress, no event;
`processing` or `queued`: `setTimeout(..., 3000)` to re-check; any other
status, a non-ok response, or a caught network error: nothing — no event
and no next check. -/
def checkProcessingStatusStep (videoId : Nat) : FetchOutcome → PollStep
  | .networkError => ⟨[], false⟩
  | .httpError => ⟨[], false⟩
  | .ok s =>
    if s = .completed then ⟨[.videoProcessingCompleted videoId], false⟩
    else if s = .failed then ⟨[], false⟩
    else if s = .processing ∨ s = .queued then ⟨[], true⟩
    else ⟨[], false⟩

/-- Function `checkProcessingStatus` (UploadSection.tsx, second variant, lines
698-731), one iteration. Same branch structure as the first variant, but
`completed` additionally dispatches `videoStatusChanged(completed)` and
`failed` dispatches `videoStatusChanged(failed)`. -/
def checkProcessingStatusStep2 (videoId : Nat) : FetchOutcome → PollStep
  | .networkError => ⟨[], false⟩
  | .httpError => ⟨[], false⟩
  | .ok s =>
    if s = .completed then
      ⟨[.videoProcessingCompleted videoId, .videoStatusChanged videoId .completed], false⟩
    else if s = .failed then ⟨[.videoStatusChanged videoId .failed], false⟩
    else if s = .processing ∨ s = .queued then ⟨[], true⟩
    else ⟨[], false⟩

/-- Function `checkVideo` inside `startIntensiveMonitoring` (ManageSection.tsx,
lines 93-115), one iteration. `completed` or `failed`: refresh the list
(`fetchVideos`), no next check; `processing` or `queued`:
`setTimeout(checkVideo, 2000)`; anything else (other statuses, non-ok
response, network error): nothing. It dispatches no events. -/
def checkVideoStep : FetchOutcome → PollStep
  | .networkError => ⟨[], false⟩
  | .httpError => ⟨[], false⟩
  | .ok s =>
    if s = .completed ∨ s = .failed then ⟨[], false⟩
    else if s = .processing ∨ s = .queued then ⟨[], true⟩
    else ⟨[], false⟩

/-- Run a recursive `setTimeout` polling chain over the sequence of fetch
outcomes the backend returns to successive checks, collecting the events
dispatched. The chain consumes a further outcome only while the previous
iteration scheduled a next check. -/
def runPollEvents (step : FetchOutcome → PollStep) : List FetchOutcome → List Event
  | [] => []
  | r :: rs =>
    (step r).events ++ (if (step r).schedulesNext then runPollEvents step rs else [])

/-- Number of status fetches the polling chain issues over the given
backend outcome sequence: one for the head, plus the rest only if the
head iteration scheduled a next check. -/
def runPollFetches (step : FetchOutcome → PollStep) : List FetchOutcome → Nat
  | [] => 0
  | r :: rs => 1 + (if (step r).schedulesNext then runPollFetches step rs else 0)

/-- Function `startIntensiveMonitoring` (ManageSection.tsx, lines 93-115) at the
timer level: it unconditionally executes `setTimeout(checkVideo, 1000)` —
there is no registry of running monitors and no lookup before scheduling.
The pending-timer multiset is a list of video ids, one entry per
scheduled `checkVideo` callback. -/
def startIntensiveMonitoring (videoId : Nat) (pending : List Nat) : List Nat :=
  pending ++ [videoId]

/-- Function `processVideo` (ManageSection.tsx, second variant, lines 604-623) at
the timer level: on an ok response to `POST /api/videos/:id/process` it
refreshes the list and calls `startIntensiveMonitoring videoId`; on a
non-ok response or a network error it schedules nothing. -/
def processVideoTimers (videoId : Nat) (ok : Bool) (pending : List Nat) : List Nat :=
  if ok then startIntensiveMonitoring videoId pending else pending

/-- Live polling chains for a given id: pending `checkVideo` timers
tagged with that id. -/
def activePollers (videoId : Nat) (pending : List Nat) : Nat :=
  pending.count videoId

/-- Firing one pending `checkVideo` timer for `videoId` (removed from
`rest` by the caller) with the backend outcome `r`: a new timer for the
same id is appended iff the iteration schedules a next check. -/
def fireCheckVideo (videoId : Nat) (r : FetchOutcome) (rest : List Nat) : List Nat :=
  if (checkVideoStep r).schedulesNext then rest ++ [videoId] else rest

/-- Function `processVideo` (UploadSection.tsx, second variant, lines 644-695),
serialized event trace. Before the `POST /process` it dispatches
`videoProcessingStarted`; on an ok acknowledgement it dispatches
`videoProcessingStarted` again, schedules two
`videoStatusChanged(processing)` dispatches (at 100 ms and 500 ms), and
calls `checkProcessingStatus` (second variant), whose first fetch is
issued at once and whose re-checks run 3000 ms apart. The serialization
below fires the two short timeouts before the poll responses; the counts
of `videoStatusChanged` and `videoProcessingCompleted` events are the
same under every interleaving because the poller contributes a fixed
multiset of events. On a non-ok acknowledgement only an error message is
set. -/
def processVideoEvents2 (videoId : Nat) (ok : Bool) (backend : List FetchOutcome) :
    List Event :=
  [.videoProcessingStarted videoId] ++
    (if ok then
      [.videoProcessingStarted videoId,
       .videoStatusChanged videoId .processing,
       .videoStatusChanged videoId .processing] ++
        runPollEvents (checkProcessingStatusStep2 videoId) backend
    else [])

/-- Number of `videoStatusChanged` events in a trace. -/
def countStatusChanged (evs : List Event) : Nat :=
  (evs.filter fun e => match e with
    | .videoStatusChanged _ _ => true
    | _ => false).length

/-- Number of `videoProcessingCompleted` events in a trace. -/
def countProcessingCompleted (evs : List Event) : Nat :=
  (evs.filter fun e => match e with
    | .videoProcessingCompleted _ => true
    | _ => false).length

/-! ## Ingestion Submitter: file validation and upload (UploadSection.tsx) -/

/-- A browser `File` as `validateFile` consults it: `name`, `type`
(declared MIME type) and `size` in bytes. -/
structure BrowserFile where
  name : String
  type : String
  size : Nat
deriving DecidableEq, Repr

/-- Constant `validTypes` (UploadSection.tsx line 23). -/
def validTypes : List String :=
  ["video/mp4", "video/mov", "video/avi", "video/mkv", "video/webm"]

/-- Constant `maxSize = 500 * 1024 * 1024` (UploadSection.tsx line 24). -/
def maxSize : Nat := 500 * 1024 * 1024

/-- Test `file.name.toLowerCase().match(/\.(mp4|mov|avi|mkv|webm)$/)`: the
lower-cased name ends in one of the five extensions. The check is
expressed over the character list of the name (character-wise
lower-casing followed by a suffix test), which is what the regular
expression anchored at `$` tests. -/
def hasValidExtension (name : String) : Bool :=
  ["mp4", "mov", "avi", "mkv", "webm"].any fun ext =>
    ("." ++ ext).data.isSuffixOf (name.data.map Char.toLower)

/-- Function `validateFile` (UploadSection.tsx, lines 22-35): an error message for
a file whose declared type is unsupported AND whose name lacks a
supported extension, or whose size exceeds `maxSize`; `none` otherwise.
Both variants of the component carry the identical function. -/
def validateFile (file : BrowserFile) : Option String :=
  if ¬ validTypes.contains file.type ∧ ¬ hasValidExtension file.name then
    some "Please select a valid video file (MP4, MOV, AVI, MKV, WEBM)"
  else if file.size > maxSize then
    some "File size must be less than 500MB"
  else
    none

/-- Upload-progress status (`UploadProgress.status` union type). -/
inductive ProgressStatus
  | uploading
  | processing
  | completed
  | error
deriving DecidableEq, Repr

/-- Interface `UploadProgress` (UploadSection.tsx lines 8-12). -/
structure UploadProgress where
  progress : Nat
  status : ProgressStatus
  message : String
deriving DecidableEq, Repr

/-- The component state `handleFileSelect` and `uploadFile` touch. -/
structure UploadState where
  selectedFile : Option BrowserFile
  uploadProgress : Option UploadProgress
deriving DecidableEq, Repr

/-- Function `handleFileSelect` (UploadSection.tsx, lines 38-51): on a validation
error, set an error progress record and return — `selectedFile` is left
unchanged; otherwise select the file and clear the progress. The
function body contains no `fetch` or `XMLHttpRequest`: no network
request is issued on either path. -/
def handleFileSelect (file : BrowserFile) (st : UploadState) : UploadState :=
  match validateFile file with
  | some err => { st with uploadProgress := some ⟨0, .error, err⟩ }
  | none => { selectedFile := some file, uploadProgress := none }

/-- Function `uploadFile` entry (UploadSection.tsx line 84): `if (!selectedFile)
return;` — the `POST /api/videos/upload` request is sent only when a
file is selected; the returned value is the file put on the wire, if
any. -/
def uploadFileRequest (st : UploadState) : Option BrowserFile :=
  st.selectedFile

/-- Result of the upload `XMLHttpRequest` as the two listeners
distinguish it: the `load` listener sees a status code, the parsed
`response.video_id` (meaningful when the status is 200) and the parsed
`error.detail` if present; the `error` listener fires on a network
error. -/
inductive XhrResult
  | loaded (status : Nat) (videoId : Nat) (errDetail : Option String)
  | networkError
deriving DecidableEq, Repr

/-- What the upload listeners produce. -/
structure UploadLoadResult where
  events : List Event
  processingScheduled : Bool
  progress : UploadProgress
deriving DecidableEq, Repr

/-- The `load` and `error` listeners of `uploadFile` (UploadSection.tsx,
lines 113-148; the second variant, lines 591-626, is textually
identical). `xhr.status === 200`: set completed progress, dispatch
`videoUploaded`, and schedule `processVideo(response.video_id)` after
1000 ms. Any other status: set error progress from `error.detail ||
"Upload failed"`, no event, no processing. Network error: error
progress, no event, no processing. -/
def uploadFileOnResult (r : XhrResult) : UploadLoadResult :=
  match r with
  | .loaded status videoId errDetail =>
    if status = 200 then
      { events := [.videoUploaded videoId]
        processingScheduled := true
        progress := ⟨100, .completed, "Upload successful! Video ID: " ++ toString videoId⟩ }
    else
      { events := []
        processingScheduled := false
        progress := ⟨0, .error, errDetail.getD "Upload failed"⟩ }
  | .networkError =>
    { events := []
      processingScheduled := false
      progress := ⟨0, .error, "Network error during upload"⟩ }

/-! ## VideoDashboard (src/unnamed/part_001): detail view, deletion,
collection auto-refresh -/

/-- The `Video` interface (part_001 lines 6-17, identical in
ManageSection.tsx lines 8-19). -/
structure Video where
  id : Nat
  title : String
  filename : String
  file_path : String
  file_size : Nat
  duration : Option Nat
  video_type : Option String
  status : Status
  created_at : String
  updated_at : String
deriving DecidableEq, Repr

/-- The `Transcript` interface (part_001 lines 19-25). -/
structure Transcript where
  id : Nat
  video_id : Nat
  full_text : String
  language : String
  created_at : String
deriving DecidableEq, Repr

/-- The `Summary` interface (part_001 lines 27-34). -/
structure Summary where
  id : Nat
  video_id : Nat
  summary_type : String
  content : String
  word_count : Nat
  created_at : String
deriving DecidableEq, Repr

/-- The `Quote` interface (part_001 lines 36-46). Times and the
relevance score are numbers in the source; they are embedded as
rationals. -/
structure Quote where
  id : Nat
  video_id : Nat
  text : String
  start_time : ℚ
  end_time : ℚ
  speaker : Option String
  quote_type : String
  relevance_score : ℚ
  created_at : String
deriving DecidableEq, Repr

/-- The `VideoDashboard` component state the orchestration logic
touches (part_001 lines 49-57). -/
structure DashboardState where
  videos : List Video
  selectedVideo : Option Video
  showTranscript : Bool
  transcript : Option Transcript
  summaries : List Summary
  quotes : List Quote
deriving DecidableEq, Repr

/-- A detail request issued by `viewVideoDetails`, tagged with the id of
the video it was issued for. -/
inductive ContentRequest
  | transcriptReq (videoId : Nat)
  | summariesReq (videoId : Nat)
  | quotesReq (videoId : Nat)
deriving DecidableEq, Repr

/-- Function `viewVideoDetails` (part_001 lines 199-210): select the video, show
the pane, and — only when its status is `completed` — issue the three
detail fetches in parallel. Returns the new state and the requests put
in flight. -/
def viewVideoDetails (video : Video) (st : DashboardState) :
    DashboardState × List ContentRequest :=
  let st1 := { st with selectedVideo := some video, showTranscript := true }
  if video.status = .completed then
    (st1, [.transcriptReq video.id, .summariesReq video.id, .quotesReq video.id])
  else
    (st1, [])

/-- The continuation of `fetchTranscript` (part_001 lines 150-164) on
response arrival: `setTranscript(data)` on an ok response,
`setTranscript(null)` on a non-ok response or a caught error. The
response is committed unconditionally — the source performs no
comparison of `data.video_id` (or of the id the request was issued for)
against the current `selectedVideo`. -/
def fetchTranscriptApply (resp : Option Transcript) (st : DashboardState) :
    DashboardState :=
  { st with transcript := resp }

/-- The continuation of `fetchSummaries` (part_001 lines 167-180):
`setSummaries(data.summaries || [])` on ok, `setSummaries([])`
otherwise; no comparison against the current selection. -/
def fetchSummariesApply (resp : Option (List Summary)) (st : DashboardState) :
    DashboardState :=
  { st with summaries := resp.getD [] }

/-- The continuation of `fetchQuotes` (part_001 lines 183-196):
`setQuotes(data.quotes || [])` on ok, `setQuotes([])` otherwise; no
comparison against the current selection. -/
def fetchQuotesApply (resp : Option (List Quote)) (st : DashboardState) :
    DashboardState :=
  { st with quotes := resp.getD [] }

/-- Function `deleteVideo` (part_001 lines 123-148). `confirmed` is the result of
the `confirm(...)` dialog; `ok` is `response.ok` for the
`DELETE /api/videos/:id` request (`false` also covers the caught network
error, which only logs); `backendAfter` is the list the follow-up
`fetchVideos` refresh returns. On success the list is refreshed and, when
`selectedVideo?.id === videoId`, the selection is cleared and the pane
hidden — there is no page-level reload primitive anywhere in the
function. -/
def deleteVideo (videoId : Nat) (confirmed ok : Bool) (backendAfter : List Video)
    (st : DashboardState) : DashboardState :=
  if ¬ confirmed then st
  else if ok then
    let st1 := { st with videos := backendAfter }
    match st1.selectedVideo with
    | some v =>
      if v.id = videoId then
        { st1 with selectedVideo := none, showTranscript := false }
      else st1
    | none => st1
  else st

/-- One tick of the auto-refresh interval (part_001 lines 250-258, every
10000 ms; ManageSection.tsx lines 204-212 carries the same body every
15000 ms): `fetchVideos` runs iff some cached video has status
`processing` or `queued`. Returns whether the list re-fetch is issued. -/
def autoRefreshTick (videos : List Video) : Bool :=
  videos.any fun v => v.status = .processing || v.status = .queued

/-- Interval period of the ManageSection auto-refresh (line 209). -/
def manageAutoRefreshPeriodMs : Nat := 15000

/-- Interval period of the VideoDashboard auto-refresh (part_001 line
255). -/
def dashboardAutoRefreshPeriodMs : Nat := 10000

/-- The continuation of `fetchVideos` (part_001 lines 60-70): the cache
is replaced wholesale by `data.videos || []`. -/
def fetchVideosApply (resp : Option (List Video)) (st : DashboardState) :
    DashboardState :=
  { st with videos := resp.getD [] }

/-! ## Remote Source Validator (modelled from the spec) -/

/-- Modelled from the spec: the debounced Remote Source Validator of
spec section 4.2 — no remote-source validation code exists under `src/`
(the feature appears only in the descriptive text of AboutSection). "On each
change, schedule a validation request after a quiet period (debounce
window, e.g. 500 ms); if the value changes again before the window
elapses, cancel the pending request — only the validation of the most recent
input may complete." The window length. -/
def debounceWindowMs : Nat := 500

/-- Modelled from the spec: given the timeline of input changes as
(time, value) pairs in chronological order, the validation requests that
are actually issued. A pending request scheduled at change time `t`
fires at `t + debounceWindowMs` unless a further change arrives strictly
before that deadline, in which case it is cancelled; the request of the final change
always fires once the input goes quiet. -/
def issuedValidationRequests : List (Nat × String) → List String
  | [] => []
  | [(_, v)] => [v]
  | (t, v) :: (t2, v2) :: rest =>
    if t2 < t + debounceWindowMs then
      issuedValidationRequests ((t2, v2) :: rest)
    else
      v :: issuedValidationRequests ((t2, v2) :: rest)

/-- Modelled from the spec: every change of the timeline arrives
strictly within the debounce window of its predecessor, i.e. the whole
burst is typed inside the quiet period. -/
def allGapsWithinWindow : List (Nat × String) → Bool
  | (t, _) :: (t2, v2) :: rest =>
    decide (t2 < t + debounceWindowMs) && allGapsWithinWindow ((t2, v2) :: rest)
  | _ => true

/-! ## Theorems -/

/-- C1 (counterexample): submitting "begin processing" twice in quick
succession for video id 1 — two acknowledged `processVideo` calls — ends
with two live polling chains for id 1, not one: the second request is
not a no-op, it schedules a second `checkVideo` timer chain. -/
theorem duplicate_submission_two_pollers_counterexample :
    activePollers 1 (processVideoTimers 1 true (processVideoTimers 1 true [])) = 2 := by
  decide

/-- C1 (amended): no deduplication of pollers per asset identifier
exists: every acknowledged "begin processing" request for an identifier
adds exactly one more live polling chain for it, so n submissions yield
n concurrent chains rather than one. -/
theorem submission_adds_polling_chain (videoId : Nat) (pending : List Nat) :
    activePollers videoId (processVideoTimers videoId true pending) =
      activePollers videoId pending + 1 := by
  simp [processVideoTimers, startIntensiveMonitoring, activePollers]

/-- C2: once any of the three polling loops (`checkProcessingStatus` in
both UploadSection variants, `checkVideo` in ManageSection) observes a
terminal status (`completed` or `failed`), it issues no further status
fetches for that identifier, whatever statuses the backend would have
returned afterwards: exactly one fetch is issued when the first observed
status is terminal, and the terminal iteration schedules no next
check. -/
theorem poller_stops_on_terminal_status (videoId : Nat) (rest : List FetchOutcome) :
    runPollFetches (checkProcessingStatusStep videoId) (.ok .completed :: rest) = 1 ∧
    runPollFetches (checkProcessingStatusStep videoId) (.ok .failed :: rest) = 1 ∧
    runPollFetches (checkProcessingStatusStep2 videoId) (.ok .completed :: rest) = 1 ∧
    runPollFetches (checkProcessingStatusStep2 videoId) (.ok .failed :: rest) = 1 ∧
    runPollFetches checkVideoStep (.ok .completed :: rest) = 1 ∧
    runPollFetches checkVideoStep (.ok .failed :: rest) = 1 ∧
    (checkProcessingStatusStep2 videoId (.ok .completed)).schedulesNext = false ∧
    (checkProcessingStatusStep2 videoId (.ok .failed)).schedulesNext = false := by
  refine ⟨?_, ?_, ?_, ?_, ?_, ?_, rfl, rfl⟩ <;>
    simp [runPollFetches, checkProcessingStatusStep, checkProcessingStatusStep2,
      checkVideoStep]

/-- C3 (counterexample): for the backend status sequence queued,
downloading, processing, completed, the second-variant processing flow
publishes two `videoStatusChanged` events — not four — and zero
`videoProcessingCompleted` events — not one; and its poller issues only
two status fetches, stopping upon observing `downloading`. -/
theorem remote_sequence_events_counterexample :
    countStatusChanged (processVideoEvents2 1 true
        [.ok .queued, .ok .downloading, .ok .processing, .ok .completed]) = 2 ∧
    countProcessingCompleted (processVideoEvents2 1 true
        [.ok .queued, .ok .downloading, .ok .processing, .ok .completed]) = 0 ∧
    runPollFetches (checkProcessingStatusStep2 1)
        [.ok .queued, .ok .downloading, .ok .processing, .ok .completed] = 2 := by
  decide

/-- C3 (amended): for a submitted asset whose backend returns the status
sequence queued, downloading, processing, completed, the flow publishes
exactly two `processing-started` events and two `status-changed` events
(both carrying status `processing`, dispatched right after the process
acknowledgement) and no `processing-completed` event: the poller
publishes nothing while the status is `queued` and stops permanently
upon observing `downloading`, a status its branches do not handle. -/
theorem remote_sequence_actual_trace :
    processVideoEvents2 1 true
        [.ok .queued, .ok .downloading, .ok .processing, .ok .completed] =
      [.videoProcessingStarted 1, .videoProcessingStarted 1,
       .videoStatusChanged 1 .processing, .videoStatusChanged 1 .processing] := by
  decide

/-- C4 (counterexample): a network error on the first poll is not
retried: even though the very next fetch would have returned
`completed`, the chain issues exactly one fetch, publishes nothing, and
dies — for `checkProcessingStatus` (second variant) and `checkVideo`
alike. -/
theorem network_error_stops_polling_counterexample :
    runPollFetches (checkProcessingStatusStep2 1) [.networkError, .ok .completed] = 1 ∧
    runPollEvents (checkProcessingStatusStep2 1) [.networkError, .ok .completed] = [] ∧
    runPollFetches checkVideoStep [.networkError, .ok .completed] = 1 := by
  decide

/-- C4 (amended): a network error during a poll is caught and logged,
and the polling chain then terminates: no retry is scheduled at any
interval, so polling for a non-terminal asset stops on the first failed
fetch (it resumes only if monitoring is started afresh externally). -/
theorem network_error_terminates_poll (videoId : Nat) (rest : List FetchOutcome) :
    runPollFetches (checkProcessingStatusStep videoId) (.networkError :: rest) = 1 ∧
    runPollFetches (checkProcessingStatusStep2 videoId) (.networkError :: rest) = 1 ∧
    runPollFetches checkVideoStep (.networkError :: rest) = 1 ∧
    runPollEvents (checkProcessingStatusStep2 videoId) (.networkError :: rest) = [] := by
  refine ⟨?_, ?_, ?_, ?_⟩ <;>
    simp [runPollFetches, runPollEvents, checkProcessingStatusStep,
      checkProcessingStatusStep2, checkVideoStep]

/-- C5 (counterexample): a 10 MiB file whose declared content type
`text/plain` is not in the supported set but whose name carries a
`.mp4` extension passes validation and is selected — the Submitter does
not reject every file with an unsupported declared content type. -/
theorem unsupported_type_accepted_counterexample :
    validTypes.contains "text/plain" = false ∧
    validateFile ⟨"clip.mp4", "text/plain", 10 * 1024 * 1024⟩ = none ∧
    (handleFileSelect ⟨"clip.mp4", "text/plain", 10 * 1024 * 1024⟩
        ⟨none, none⟩).selectedFile =
      some ⟨"clip.mp4", "text/plain", 10 * 1024 * 1024⟩ := by
  decide

/-- C5 (amended): a local file whose declared content type is
unsupported AND whose filename extension is not one of
mp4/mov/avi/mkv/webm, or whose size exceeds the 500 MiB ceiling, is
rejected before transfer: validation fails, an error progress record is
set, the file is not selected, and — since the upload request is sent
only for a selected file — no network request is made for it. The check
is local and synchronous. -/
theorem validateFile_rejects_locally (file : BrowserFile) (st : UploadState)
    (h : (validTypes.contains file.type = false ∧ hasValidExtension file.name = false)
      ∨ file.size > maxSize) :
    validateFile file ≠ none ∧
    (handleFileSelect file st).selectedFile = st.selectedFile ∧
    (∃ err, (handleFileSelect file st).uploadProgress = some ⟨0, .error, err⟩) ∧
    (st.selectedFile = none → uploadFileRequest (handleFileSelect file st) = none) := by
  have hv : ∃ err, validateFile file = some err := by
    unfold validateFile
    rcases h with ⟨h1, h2⟩ | h3
    · have hm : file.type ∉ validTypes := by simpa using h1
      exact ⟨"Please select a valid video file (MP4, MOV, AVI, MKV, WEBM)",
        by simp [hm, h2]⟩
    · by_cases hc : ¬ (validTypes.contains file.type : Prop) ∧
        ¬ (hasValidExtension file.name : Prop)
      · exact ⟨_, by rw [if_pos hc]⟩
      · exact ⟨_, by rw [if_neg hc, if_pos h3]⟩
  obtain ⟨err, herr⟩ := hv
  refine ⟨by simp [herr], ?_, ⟨err, ?_⟩, ?_⟩ <;>
    simp [handleFileSelect, herr, uploadFileRequest]

/-- C5 (witness): the spec scenario — a 10 MiB `text/plain` file with a
non-video extension is rejected locally, leaves no file selected, and
causes no upload request. -/
theorem validateFile_rejects_locally_witness :
    validateFile ⟨"notes.txt", "text/plain", 10 * 1024 * 1024⟩ ≠ none ∧
    (handleFileSelect ⟨"notes.txt", "text/plain", 10 * 1024 * 1024⟩
        ⟨none, none⟩).selectedFile = none ∧
    (∃ err, (handleFileSelect ⟨"notes.txt", "text/plain", 10 * 1024 * 1024⟩
        ⟨none, none⟩).uploadProgress = some ⟨0, .error, err⟩) ∧
    uploadFileRequest (handleFileSelect ⟨"notes.txt", "text/plain", 10 * 1024 * 1024⟩
        ⟨none, none⟩) = none := by
  have h := validateFile_rejects_locally
    ⟨"notes.txt", "text/plain", 10 * 1024 * 1024⟩ ⟨none, none⟩
    (Or.inl (by decide))
  exact ⟨h.1, h.2.1, h.2.2.1, h.2.2.2 rfl⟩

/-- C6 (counterexample): select completed video 1, then select completed
video 2 before the transcript response of video 1 has arrived; when that
response arrives it is committed anyway: the final state shows video 2
selected while displaying the transcript of video 1 — the in-flight
response for the previous selection is not discarded. -/
theorem stale_transcript_committed_counterexample :
    (let videoA : Video := ⟨1, "A", "a.mp4", "/a.mp4", 100, none, none, .completed, "", ""⟩
     let videoB : Video := ⟨2, "B", "b.mp4", "/b.mp4", 200, none, none, .completed, "", ""⟩
     let tA : Transcript := ⟨10, 1, "hello", "en", ""⟩
     let st1 := (viewVideoDetails videoA ⟨[videoA, videoB], none, false, none, [], []⟩).1
     let st2 := (viewVideoDetails videoB st1).1
     let st3 := fetchTranscriptApply (some tA) st2
     st3.selectedVideo = some videoB ∧ st3.transcript = some tA ∧
       ¬ tA.video_id = videoB.id) := by
  decide

/-- C6 (amended): in-flight transcript, summary-set and quote-set
responses are committed to the view state unconditionally on arrival —
the responding identifier is never compared against the currently
selected one — so after a selection change, a late response for the
previously selected asset overwrites the displayed content while the
selection itself is untouched. -/
theorem content_responses_committed_unconditionally (st : DashboardState)
    (rt : Option Transcript) (rs : Option (List Summary)) (rq : Option (List Quote)) :
    (fetchTranscriptApply rt st).transcript = rt ∧
    (fetchTranscriptApply rt st).selectedVideo = st.selectedVideo ∧
    (fetchSummariesApply rs st).summaries = rs.getD [] ∧
    (fetchSummariesApply rs st).selectedVideo = st.selectedVideo ∧
    (fetchQuotesApply rq st).quotes = rq.getD [] ∧
    (fetchQuotesApply rq st).selectedVideo = st.selectedVideo := by
  exact ⟨rfl, rfl, rfl, rfl, rfl, rfl⟩

/-- C7 (counterexample): the baseline interval tick does NOT re-fetch
regardless of cached statuses: with a cache holding only an `uploaded`
video — or an empty cache — the tick issues no list fetch at all, so a
newly completed asset on the backend is not reflected by the periodic
refresh. -/
theorem baseline_refresh_guard_counterexample :
    autoRefreshTick [⟨1, "A", "a.mp4", "/a.mp4", 100, none, none, .uploaded, "", ""⟩]
      = false ∧
    autoRefreshTick [] = false := by
  decide

/-- C7 (amended): the baseline interval tick re-fetches the full asset
list only while the local cache holds some video with status
`processing` or `queued`; when it does, the fetch is issued and the
arriving authoritative list replaces the cache wholesale, so a newly
completed asset is reflected within one refresh period in that case. -/
theorem baseline_refresh_when_active (st : DashboardState) (resp : List Video)
    (h : ∃ v ∈ st.videos, v.status = .processing ∨ v.status = .queued) :
    autoRefreshTick st.videos = true ∧
    (fetchVideosApply (some resp) st).videos = resp := by
  refine ⟨?_, rfl⟩
  obtain ⟨v, hv, hs⟩ := h
  simp only [autoRefreshTick, List.any_eq_true]
  exact ⟨v, hv, by rcases hs with h | h <;> simp [h]⟩

/-- C7 (witness): a cache holding video 1 as `processing` triggers the
baseline re-fetch, and the refreshed cache is the authoritative list
(which here contains video 1 as `completed`). -/
theorem baseline_refresh_when_active_witness :
    autoRefreshTick [⟨1, "A", "a.mp4", "/a.mp4", 100, none, none, .processing, "", ""⟩]
      = true ∧
    (fetchVideosApply
        (some [⟨1, "A", "a.mp4", "/a.mp4", 100, none, none, .completed, "", ""⟩])
        ⟨[⟨1, "A", "a.mp4", "/a.mp4", 100, none, none, .processing, "", ""⟩],
          none, false, none, [], []⟩).videos =
      [⟨1, "A", "a.mp4", "/a.mp4", 100, none, none, .completed, "", ""⟩] := by
  exact baseline_refresh_when_active
    ⟨[⟨1, "A", "a.mp4", "/a.mp4", 100, none, none, .processing, "", ""⟩],
      none, false, none, [], []⟩
    [⟨1, "A", "a.mp4", "/a.mp4", 100, none, none, .completed, "", ""⟩]
    ⟨⟨1, "A", "a.mp4", "/a.mp4", 100, none, none, .processing, "", ""⟩,
      by simp, Or.inl rfl⟩

/-- C8: for any nonempty burst of input changes in which every change
arrives strictly within the debounce window of its predecessor, exactly
one validation request is issued, and it carries the final input value:
each earlier pending request is cancelled by the next change. -/
theorem debounce_single_request : ∀ (l : List (Nat × String)),
    l ≠ [] → allGapsWithinWindow l = true →
    issuedValidationRequests l = (l.getLast?.map Prod.snd).toList
  | [], hne, _ => absurd rfl hne
  | [(t, v)], _, _ => by
    simp [issuedValidationRequests]
  | (t, v) :: (t2, v2) :: rest, _, h => by
    have h1 : t2 < t + debounceWindowMs := by
      have := (Bool.and_eq_true _ _).mp h
      exact of_decide_eq_true this.1
    have h2 : allGapsWithinWindow ((t2, v2) :: rest) = true :=
      ((Bool.and_eq_true _ _).mp h).2
    have ih := debounce_single_request ((t2, v2) :: rest) (by simp) h2
    simp [issuedValidationRequests, h1, ih, List.getLast?_cons_cons]

/-- C8 (witness): the spec scenario — typing "a", "ab", "abc" at 0 ms,
100 ms and 200 ms (all inside the 500 ms window) issues exactly one
validation request, for "abc". -/
theorem debounce_single_request_witness :
    issuedValidationRequests [(0, "a"), (100, "ab"), (200, "abc")] = ["abc"] := by
  have h := debounce_single_request [(0, "a"), (100, "ab"), (200, "abc")]
    (by simp) (by decide)
  exact h.trans (by decide)

/-- C9: a successful delete of the currently selected video clears the
selection and hides the detail pane (`deleteVideo` performs only these
state updates — no page-level reload primitive exists in it), while a
successful delete of a video other than the selected one leaves the
selection unchanged; in both cases the list is refreshed from the
backend. -/
theorem deleteVideo_clears_matching_selection (videoId : Nat)
    (backendAfter : List Video) (st : DashboardState) (v : Video)
    (hsel : st.selectedVideo = some v) :
    (v.id = videoId →
      (deleteVideo videoId true true backendAfter st).selectedVideo = none ∧
      (deleteVideo videoId true true backendAfter st).showTranscript = false ∧
      (deleteVideo videoId true true backendAfter st).videos = backendAfter) ∧
    (v.id ≠ videoId →
      (deleteVideo videoId true true backendAfter st).selectedVideo = some v ∧
      (deleteVideo videoId true true backendAfter st).videos = backendAfter) := by
  constructor <;> intro h <;>
    simp [deleteVideo, hsel, h]

/-- C9 (witness): deleting selected video 1 clears the selection and
pane; deleting video 2 while video 1 is selected leaves the selection
intact. -/
theorem deleteVideo_clears_matching_selection_witness :
    ((deleteVideo 1 true true []
        ⟨[⟨1, "A", "a.mp4", "/a.mp4", 100, none, none, .completed, "", ""⟩],
          some ⟨1, "A", "a.mp4", "/a.mp4", 100, none, none, .completed, "", ""⟩,
          true, none, [], []⟩).selectedVideo = none ∧
      (deleteVideo 1 true true []
        ⟨[⟨1, "A", "a.mp4", "/a.mp4", 100, none, none, .completed, "", ""⟩],
          some ⟨1, "A", "a.mp4", "/a.mp4", 100, none, none, .completed, "", ""⟩,
          true, none, [], []⟩).showTranscript = false) ∧
    (deleteVideo 2 true true []
        ⟨[⟨1, "A", "a.mp4", "/a.mp4", 100, none, none, .completed, "", ""⟩],
          some ⟨1, "A", "a.mp4", "/a.mp4", 100, none, none, .completed, "", ""⟩,
          true, none, [], []⟩).selectedVideo =
      some ⟨1, "A", "a.mp4", "/a.mp4", 100, none, none, .completed, "", ""⟩ := by
  have h1 := deleteVideo_clears_matching_selection 1 []
    ⟨[⟨1, "A", "a.mp4", "/a.mp4", 100, none, none, .completed, "", ""⟩],
      some ⟨1, "A", "a.mp4", "/a.mp4", 100, none, none, .completed, "", ""⟩,
      true, none, [], []⟩
    ⟨1, "A", "a.mp4", "/a.mp4", 100, none, none, .completed, "", ""⟩ rfl
  have h2 := deleteVideo_clears_matching_selection 2 []
    ⟨[⟨1, "A", "a.mp4", "/a.mp4", 100, none, none, .completed, "", ""⟩],
      some ⟨1, "A", "a.mp4", "/a.mp4", 100, none, none, .completed, "", ""⟩,
      true, none, [], []⟩
    ⟨1, "A", "a.mp4", "/a.mp4", 100, none, none, .completed, "", ""⟩ rfl
  exact ⟨⟨(h1.1 rfl).1, (h1.1 rfl).2.1⟩, (h2.2 (by decide)).1⟩

/-- C10: the upload `load` listener dispatches the `videoUploaded`
(created) event and schedules `processVideo` if and only if the HTTP
status is exactly 200; every other status — other 2xx codes included —
and a network error produce no event, schedule no processing (hence no
poller ever starts), and record an error in the upload state. -/
theorem upload_created_event_iff_status_200 (status videoId : Nat)
    (errDetail : Option String) :
    (status = 200 →
      uploadFileOnResult (.loaded status videoId errDetail) =
        ⟨[.videoUploaded videoId], true,
          ⟨100, .completed, "Upload successful! Video ID: " ++ toString videoId⟩⟩) ∧
    (status ≠ 200 →
      (uploadFileOnResult (.loaded status videoId errDetail)).events = [] ∧
      (uploadFileOnResult (.loaded status videoId errDetail)).processingScheduled
        = false ∧
      (uploadFileOnResult (.loaded status videoId errDetail)).progress.status
        = .error) ∧
    (uploadFileOnResult .networkError).events = [] ∧
    (uploadFileOnResult .networkError).processingScheduled = false ∧
    (uploadFileOnResult .networkError).progress.status = .error := by
  refine ⟨fun h => by simp [uploadFileOnResult, h],
    fun h => ?_, rfl, rfl, rfl⟩
  simp [uploadFileOnResult, h]

/-- C10 (witness): status 200 dispatches the created event and schedules
processing; status 201 — another 2xx — dispatches nothing and schedules
nothing. -/
theorem upload_created_event_iff_status_200_witness :
    uploadFileOnResult (.loaded 200 7 none) =
      ⟨[.videoUploaded 7], true,
        ⟨100, .completed, "Upload successful! Video ID: " ++ toString 7⟩⟩ ∧
    (uploadFileOnResult (.loaded 201 7 none)).events = [] ∧
    (uploadFileOnResult (.loaded 201 7 none)).processingScheduled = false := by
  have h200 := upload_created_event_iff_status_200 200 7 none
  have h201 := upload_created_event_iff_status_200 201 7 none
  exact ⟨h200.1 rfl, (h201.2.1 (by decide)).1, (h201.2.1 (by decide)).2.1⟩

end Capsule
